import Mathlib

/-!
Shallow embedding of the Kimchi REST dispatch layer
(`src/kimchi/controller.py`): request parsing, JSON-schema validation,
the generic `Resource` / `Collection` contract, the asynchronous and
storage-pool collection variants, and the exception-to-HTTP-status
translation.  External collaborators (the model layer, `json.loads`,
the `jsonschema` Draft-3 validator, `kimchi.template.render`) are kept
abstract: they are carried as function-valued parameters or opaque
constructors, exactly at the boundary where the Python code calls them.
-/

/-- Dynamic (JSON-like) values, standing for the Python objects that
flow through the controller: parsed request bodies, model-layer results
and rendered data dictionaries. -/
inductive JVal where
  | str (s : String)
  | num (n : Int)
  | bool (b : Bool)
  | nul
  | arr (xs : List JVal)
  | obj (fields : List (String × JVal))

mutual

/-- Structural equality on dynamic values, standing for Python `==` on
parsed-JSON data. -/
def JVal.beq : JVal → JVal → Bool
  | .str a, .str b => a == b
  | .num a, .num b => a == b
  | .bool a, .bool b => a == b
  | .nul, .nul => true
  | .arr a, .arr b => JVal.beqList a b
  | .obj a, .obj b => JVal.beqFields a b
  | _, _ => false

/-- Pointwise equality of JSON arrays. -/
def JVal.beqList : List JVal → List JVal → Bool
  | [], [] => true
  | a :: as, b :: bs => JVal.beq a b && JVal.beqList as bs
  | _, _ => false

/-- Pointwise equality of JSON object field lists. -/
def JVal.beqFields : List (String × JVal) → List (String × JVal) → Bool
  | [], [] => true
  | (ka, va) :: as, (kb, vb) :: bs => ka == kb && JVal.beq va vb && JVal.beqFields as bs
  | _, _ => false

end

/-- Python truthiness of a JSON-like value (`if val:`). -/
def JVal.truthy : JVal → Bool
  | .str s => s ≠ ""
  | .num n => n ≠ 0
  | .bool b => b
  | .nul => false
  | .arr xs => !xs.isEmpty
  | .obj fs => !fs.isEmpty

/-- Dictionary field access `d[k]` / `d.get(k)`: first binding of the key. -/
def JVal.get? : JVal → String → Option JVal
  | .obj fs, k => (fs.find? (fun p => p.1 == k)).map (fun p => p.2)
  | _, _ => none

/-- `k in d`: key membership in a JSON object. -/
def JVal.hasKey (v : JVal) (k : String) : Bool :=
  (JVal.get? v k).isSome

/-- `d.keys()`: the keys of a JSON object (empty for non-objects). -/
def JVal.keys : JVal → List String
  | .obj fs => fs.map (fun p => p.1)
  | _ => []

/-- `d[k] = v` on a JSON object: overwrite the first binding, or append. -/
def JVal.setKey : JVal → String → JVal → JVal
  | .obj fs, k, v =>
      if fs.any (fun p => p.1 == k) then
        .obj (fs.map (fun p => if p.1 == k then (k, v) else p))
      else
        .obj (fs ++ [(k, v)])
  | w, _, _ => w

/-- The controller's domain-error taxonomy (`kimchi.exception`), raised
by the model layer and translated to HTTP statuses. -/
inductive KError where
  | missingParameter (msg : String)
  | invalidParameter (msg : String)
  | invalidOperation (msg : String)
  | operationFailed (msg : String)
  | notFoundError (msg : String)
deriving DecidableEq

/-- Everything a handler body can raise: `cherrypy.HTTPError`,
`cherrypy.HTTPRedirect`, `cherrypy.InternalRedirect`, a domain error of
the taxonomy, or a plain Python exception (`KeyError`, `AttributeError`,
`TypeError`) that no `except` clause of this layer names. -/
inductive Raised where
  | httpError (status : Nat) (msg : String)
  | redirect (uri : String) (status : Nat)
  | internalRedirect (uri : String)
  | kerr (e : KError)
  | keyError (key : String)
  | attrError
  | typeError

/-- A response body: either `kimchi.template.render(name, data)` (kept
abstract as a constructor) or the empty body of a bodyless return. -/
inductive Body where
  | rendered (template : String) (data : JVal)
  | empty

/-- The observable outcome of dispatching one request through an
exposed handler: a normal response (CherryPy status plus body), an
`HTTPError` response, an HTTP redirect, an internal redirect, or an
exception that escaped this layer entirely. -/
inductive Outcome where
  | response (status : Nat) (body : Body)
  | httpError (status : Nat) (msg : String)
  | redirect (uri : String) (status : Nat)
  | internalRedirect (uri : String)
  | unhandled (e : Raised)

/-- Exceptions that no `except` clause of a handler catches escape the
handler; CherryPy turns `HTTPError` / redirect control-flow exceptions
into the corresponding responses, anything else is unhandled. -/
def Raised.escalate : Raised → Outcome
  | .httpError s m => .httpError s m
  | .redirect u s => .redirect u s
  | .internalRedirect u => .internalRedirect u
  | e => .unhandled e

/-- The Draft-3 validator built from the globally-loaded schema, kept
abstract by its observable behaviour: `iter_errors` yields the messages
of all validation errors of a document (`validate` raises exactly when
this list is nonempty). -/
structure SchemaValidator where
  iterErrors : JVal → List String

/-- Ambient per-process state the controller reads: the JSON decoder
(`json.loads`, `none` = `ValueError`) and the optional globally-loaded
API schema (`cherrypy.request.app.root.api_schema` when present). -/
structure Server where
  jsonLoads : String → Option JVal
  api_schema : Option SchemaValidator

/-- An inbound HTTP request as this layer observes it: method, headers
and the raw body bytes. -/
structure Request where
  method : String
  headers : List (String × String)
  rawbody : String

/-- Header lookup (witness requests use canonical header casing). -/
def Request.header? (req : Request) (name : String) : Option String :=
  (req.headers.find? (fun p => p.1 == name)).map (fun p => p.2)

/-- `name in cherrypy.request.headers`. -/
def Request.hasHeader (req : Request) (name : String) : Bool :=
  (req.header? name).isSome

/-- The external model layer: convention-named methods looked up with
`getattr` (`none` = `AttributeError`), each taking the positional
argument list and either returning a value or raising a domain error. -/
structure Model where
  methods : String → Option (List JVal → Except KError JVal)

/-- `model_fn`: convention-based model method name
`"<type>_<fn>"`, with the class-name part precomputed
(`get_class_name` lowercases the concrete resource class's name). -/
def model_fn (typeName fn_name : String) : String :=
  typeName ++ "_" ++ fn_name

/-- `str.upper()` on one character (ASCII, as HTTP method names are). -/
def upChar (c : Char) : Char :=
  if 97 ≤ c.toNat ∧ c.toNat ≤ 122 then Char.ofNat (c.toNat - 32) else c

/-- `str.upper()`. -/
def pyUpper (s : String) : String :=
  String.mk (s.data.map upChar)

/-- `str.split(sep)` on a single-character separator, scanning the
characters (`acc` holds the current chunk reversed). -/
def splitCharAux (sep : Char) : List Char → List Char → List String
  | [], acc => [String.mk acc.reverse]
  | c :: rest, acc =>
      if c = sep then String.mk acc.reverse :: splitCharAux sep rest []
      else splitCharAux sep rest (c :: acc)

/-- `str.split(sep)` for the one-character separators this layer uses. -/
def pySplit (sep : Char) (s : String) : List String :=
  splitCharAux sep s.data []

/-- `startsWithL a b`: the char list `a` is an initial segment of `b`. -/
def startsWithL : List Char → List Char → Bool
  | [], _ => true
  | _ :: _, [] => false
  | a :: as, b :: bs => a == b && startsWithL as bs

/-- `insideL a b`: the char list `a` occurs contiguously in `b`
(Python `sub in str` substring membership). -/
def insideL (needle : List Char) : List Char → Bool
  | [] => needle.isEmpty
  | c :: rest => startsWithL needle (c :: rest) || insideL needle rest

/-- `validate_method` with a genuine tuple of allowed methods (the
`Resource.index` / `Collection.index` call sites): uppercases the
request method and requires membership, else `HTTPError(405)`. -/
def validate_method (allowed : List String) (reqMethod : String) : Except Raised String :=
  let method := pyUpper reqMethod
  if allowed.contains method then .ok method
  else .error (.httpError 405 "")

/-- `validate_method(('POST'))` as written in `generate_action_handler`:
the parenthesised `'POST'` is a plain string, so Python `in` tests
substring membership of the uppercased method in `"POST"`. -/
def validate_method_str (allowed : String) (reqMethod : String) : Except Raised String :=
  let method := pyUpper reqMethod
  if insideL method.toList allowed.toList then .ok method
  else .error (.httpError 405 "")

/-- `mime_in_header`: read the header (defaulting to
`application/json` when absent), drop any `;`-parameters, and test the
mime against the comma-separated list. -/
def mime_in_header (req : Request) (header : String) (mime : String) : Bool :=
  let accepts :=
    match req.header? header with
    | none => "application/json"
    | some v => v
  let accepts := (pySplit (Char.ofNat 59) accepts).headD accepts
  (pySplit (Char.ofNat 44) accepts).contains mime

/-- `parse_request`: no `Content-Length` header means an empty parameter
dict without touching body or content type; otherwise the body is read
and decoded as JSON iff the content type carries `application/json`
(else 415), with a decode failure mapped to 400. -/
def parse_request (srv : Server) (req : Request) : Except Raised JVal :=
  if req.hasHeader "Content-Length" = false then
    .ok (JVal.obj [])
  else
    let rawbody := req.rawbody
    if mime_in_header req "Content-Type" "application/json" then
      match srv.jsonLoads rawbody with
      | some v => .ok v
      | none => .error (.httpError 400 "Unable to parse JSON request")
    else
      .error (.httpError 415 "This API only supports \x27application/json\x27")

/-- `validate_params`: a no-op when the running server has no
`api_schema`; otherwise wrap the params under the `"<type>_<action>"`
operation key and run the Draft-3 validator, turning a failing
validation into a single `InvalidParameter` whose message joins every
validator message with `"; "`. -/
def validate_params (srv : Server) (params : JVal) (typeName action : String) :
    Except Raised Unit :=
  match srv.api_schema with
  | none => .ok ()
  | some validator =>
      let operation := model_fn typeName action
      let request := JVal.obj [(operation, params)]
      match validator.iterErrors request with
      | [] => .ok ()
      | msgs => .error (.kerr (.invalidParameter (String.intercalate "; " msgs)))

/-- Python `str()` of a dynamic value, as used by `'%s'`-format
substitution.  In every modelled route the substituted arguments are
identifier strings (URL path segments or percent-quoted idents); the
container branches stand for Python's container repr, never reached in
those routes. -/
def pyToStr : JVal → String
  | .str s => s
  | .num n => toString n
  | .bool b => if b then "True" else "False"
  | .nul => "None"
  | .arr _ => "[...]"
  | .obj _ => "\x7b...\x7d"

/-- Substitute the arguments for the `%s` markers of a Python
`'%s'`-format template, scanning the template characters. -/
def pctFormatAux : List Char → List JVal → String
  | [], _ => ""
  | '%' :: 's' :: rest, a :: as => pyToStr a ++ pctFormatAux rest as
  | '%' :: 's' :: rest, [] => pctFormatAux rest []
  | c :: rest, as => String.singleton c ++ pctFormatAux rest as

/-- `fmt % tuple(args)` for the URI templates of this layer. -/
def pyFormat (fmt : String) (args : List JVal) : String :=
  pctFormatAux fmt.toList args

/-- UTF-8 encoding of one code point (`unicode.encode('utf8')`, byte by
byte). -/
def charUtf8 (c : Char) : List Nat :=
  let n := c.toNat
  if n < 0x80 then [n]
  else if n < 0x800 then
    [0xC0 ||| (n >>> 6), 0x80 ||| (n &&& 0x3F)]
  else if n < 0x10000 then
    [0xE0 ||| (n >>> 12), 0x80 ||| ((n >>> 6) &&& 0x3F), 0x80 ||| (n &&& 0x3F)]
  else
    [0xF0 ||| (n >>> 18), 0x80 ||| ((n >>> 12) &&& 0x3F),
     0x80 ||| ((n >>> 6) &&& 0x3F), 0x80 ||| (n &&& 0x3F)]

/-- One uppercase hex digit. -/
def hexDigit (n : Nat) : Char :=
  if n < 10 then Char.ofNat (48 + n) else Char.ofNat (55 + n)

/-- `urllib2.quote` on a single byte: letters, digits, `_.-` and the
default-safe `/` pass through, every other byte becomes `%XX`. -/
def quoteByte (b : Nat) : String :=
  if (48 ≤ b ∧ b ≤ 57) ∨ (65 ≤ b ∧ b ≤ 90) ∨ (97 ≤ b ∧ b ≤ 122)
      ∨ b = 95 ∨ b = 46 ∨ b = 45 ∨ b = 47 then
    String.singleton (Char.ofNat b)
  else
    "%" ++ String.singleton (hexDigit (b / 16)) ++ String.singleton (hexDigit (b % 16))

/-- `urllib2.quote(s.encode('utf8'))`: percent-quote the UTF-8 bytes. -/
def pyquote (s : String) : String :=
  String.join (((s.data.map charUtf8).flatten).map quoteByte)

/-- Python `str()` of a list of strings (`"%s" % invalids`), rendering
each element with its repr quotes. -/
def pyStrListRepr (l : List String) : String :=
  "[" ++ String.intercalate ", " (l.map (fun s => "\x27" ++ s ++ "\x27")) ++ "]"

/-- The per-request state of a `Resource` instance as built by the
dispatcher: the lowercased concrete class name (`get_class_name`), the
identifier, the model argument tuple, the `update_params` allow-list
(`none` = Python `None`), the `uri_fmt` template, and the subclass's
`data` property as a function of `ident` and the looked-up `info`. -/
structure ResourceData where
  typeName : String
  ident : JVal
  model_args : List JVal
  update_params : Option (List String)
  uri_fmt : String
  dataFn : JVal → JVal → Except Raised JVal

/-- `Resource.lookup`: fetch `info` through the convention-named model
method; a missing method (`AttributeError`) silently yields empty info. -/
def Resource.lookup (model : Model) (r : ResourceData) : Except Raised JVal :=
  match model.methods (model_fn r.typeName "lookup") with
  | none => .ok (JVal.obj [])
  | some f => (f r.model_args).mapError .kerr

/-- `Resource.get`: look up, then render the `data` projection under the
resource's type name (CherryPy's default status 200). -/
def Resource.get (model : Model) (r : ResourceData) : Except Raised (Nat × Body) := do
  let info ← Resource.lookup model r
  let d ← r.dataFn r.ident info
  pure (200, Body.rendered r.typeName d)

/-- `Resource.delete`: a missing `"<type>_delete"` model method maps to
405; a successful call sets status 204 and returns no body;
`OperationFailed` and `InvalidOperation` are mapped here, every other
domain error propagates to the caller. -/
def Resource.delete (model : Model) (r : ResourceData) : Except Raised (Nat × Body) :=
  match model.methods (model_fn r.typeName "delete") with
  | none => .error (.httpError 405 ("Delete is not allowed for " ++ r.typeName))
  | some f =>
      match f r.model_args with
      | .ok _ => .ok (204, Body.empty)
      | .error (.operationFailed m) =>
          .error (.httpError 500 ("Operation Failed: \x27" ++ m ++ "\x27"))
      | .error (.invalidOperation m) =>
          .error (.httpError 400 ("Invalid operation: \x27" ++ m ++ "\x27"))
      | .error e => .error (.kerr e)

/-- `Resource.update`: require the `"<type>_update"` model method (405
otherwise), parse and schema-validate the body, reject (405, listing
them) body keys outside a non-null `update_params` allow-list, then
invoke the model update with `(ident, params)`; a changed identifier
raises a 303 redirect to the re-templated canonical URI (with the new
identifier percent-quoted), an unchanged one re-renders via `get`. -/
def Resource.update (srv : Server) (model : Model) (r : ResourceData) (req : Request) :
    Except Raised (Nat × Body) := do
  let updateFn ← match model.methods (model_fn r.typeName "update") with
    | none => Except.error (Raised.httpError 405
        (r.typeName ++ " does not implement update method"))
    | some f => pure f
  let params ← parse_request srv req
  let _ ← validate_params srv params r.typeName "update"
  let _ ← match r.update_params with
    | none => pure ()
    | some allowed =>
        let invalids := params.keys.filter (fun v => !(allowed.contains v))
        if invalids.isEmpty then pure ()
        else Except.error (Raised.httpError 405
            (pyStrListRepr invalids ++ " are not allowed to be updated"))
  let newIdent ← (updateFn [r.ident, params]).mapError Raised.kerr
  if JVal.beq newIdent r.ident then
    Resource.get model r
  else
    match newIdent with
    | .str s =>
        Except.error (Raised.redirect
          (pyFormat r.uri_fmt (r.model_args.dropLast ++ [JVal.str (pyquote s)])) 303)
    | _ => Except.error Raised.attrError

/-- The `except` clauses of `Resource.index`'s GET arm: `NotFoundError`
404, `InvalidOperation` 400, `OperationFailed` 406; anything else
escapes. -/
def resourceGetVerbMap : Except Raised (Nat × Body) → Outcome
  | .ok (s, b) => .response s b
  | .error (.kerr (.notFoundError m)) =>
      .httpError 404 ("Not found: \x27" ++ m ++ "\x27")
  | .error (.kerr (.invalidOperation m)) =>
      .httpError 400 ("Invalid operation: \x27" ++ m ++ "\x27")
  | .error (.kerr (.operationFailed m)) =>
      .httpError 406 ("Operation failed: \x27" ++ m ++ "\x27")
  | .error e => e.escalate

/-- The `except` clauses of `Resource.index`'s DELETE arm: only
`NotFoundError` is caught there (404). -/
def resourceDeleteVerbMap : Except Raised (Nat × Body) → Outcome
  | .ok (s, b) => .response s b
  | .error (.kerr (.notFoundError m)) =>
      .httpError 404 ("Not found: \x27" ++ m ++ "\x27")
  | .error e => e.escalate

/-- The `except` clauses of `Resource.index`'s PUT arm:
`InvalidParameter` 400, `InvalidOperation` 400, `NotFoundError` 404;
anything else escapes. -/
def resourcePutVerbMap : Except Raised (Nat × Body) → Outcome
  | .ok (s, b) => .response s b
  | .error (.kerr (.invalidParameter m)) =>
      .httpError 400 ("Invalid parameter: \x27" ++ m ++ "\x27")
  | .error (.kerr (.invalidOperation m)) =>
      .httpError 400 ("Invalid operation: \x27" ++ m ++ "\x27")
  | .error (.kerr (.notFoundError m)) =>
      .httpError 404 ("Not found: \x27" ++ m ++ "\x27")
  | .error e => e.escalate

/-- `Resource.index`: method gate (GET/DELETE/PUT), then per-method
dispatch with that method's `except` clauses; exceptions no clause
names escape via `Raised.escalate`. -/
def Resource.index (srv : Server) (model : Model) (r : ResourceData) (req : Request) :
    Outcome :=
  match validate_method ["GET", "DELETE", "PUT"] req.method with
  | .error e => e.escalate
  | .ok method =>
    if method = "GET" then
      resourceGetVerbMap (Resource.get model r)
    else if method = "DELETE" then
      resourceDeleteVerbMap (Resource.delete model r)
    else
      resourcePutVerbMap (Resource.update srv model r req)

/-- The `except` clauses of a generated action wrapper: all five domain
errors are mapped (`MissingParameter` 400, `InvalidParameter` 400,
`InvalidOperation` 400, `OperationFailed` 500, `NotFoundError` 404);
anything else, the internal redirect included, escapes. -/
def actionVerbMap : Except Raised Empty → Outcome
  | .ok e => e.elim
  | .error (.kerr (.missingParameter m)) =>
      .httpError 400 ("Missing parameter: \x27" ++ m ++ "\x27")
  | .error (.kerr (.invalidParameter m)) =>
      .httpError 400 ("Invalid parameter: \x27" ++ m ++ "\x27")
  | .error (.kerr (.invalidOperation m)) =>
      .httpError 400 ("Invalid operation: \x27" ++ m ++ "\x27")
  | .error (.kerr (.operationFailed m)) =>
      .httpError 500 ("Operation Failed: \x27" ++ m ++ "\x27")
  | .error (.kerr (.notFoundError m)) =>
      .httpError 404 ("Not found: \x27" ++ m ++ "\x27")
  | .error e => e.escalate

/-- `Resource.generate_action_handler`'s generated wrapper: POST-only
(via the string-membership `validate_method(('POST'))`), optional
extraction of the declared body-parameter keys (each key indexing a
fresh `parse_request()` result) appended after the resource's model
arguments, invocation of `"<type>_<action>"`, and on success an
internal redirect to the templated canonical URI; the five domain
errors are mapped, everything else escapes. -/
def Resource.generate_action_handler (srv : Server) (model : Model) (r : ResourceData)
    (action_name : String) (action_args : Option (List String)) (req : Request) : Outcome :=
  match validate_method_str "POST" req.method with
  | .error e => e.escalate
  | .ok _ =>
    let run : Except Raised Empty := do
      let base := r.model_args
      let callArgs ← match action_args with
        | none => pure base
        | some keys => do
            let extra ← keys.mapM (fun key => do
              let params ← parse_request srv req
              match params.get? key with
              | some v => pure v
              | none => Except.error (Raised.keyError key))
            pure (base ++ extra)
      let fn ← match model.methods (model_fn r.typeName action_name) with
        | some f => pure f
        | none => Except.error Raised.attrError
      let _ ← (fn callArgs).mapError Raised.kerr
      Except.error (Raised.internalRedirect (pyFormat r.uri_fmt r.model_args))
    actionVerbMap run

/-- The per-request state of a `Collection` instance: the lowercased
class name, the accumulated `model_args`, and the member-`Resource`
constructor `self.resource(self.model, *(self.resource_args + [ident]))`
with the `resource_args` already captured. -/
structure CollectionData where
  typeName : String
  model_args : List JVal
  mkResource : JVal → ResourceData

/-- `Collection.create`: require `"<type>_create"` (405 otherwise),
parse and schema-validate the body, call create with the accumulated
model args plus the body, set status 201 and respond with the freshly
constructed member's `get()` rendering. -/
def Collection.create (srv : Server) (model : Model) (c : CollectionData) (req : Request) :
    Except Raised (Nat × Body) := do
  let createFn ← match model.methods (model_fn c.typeName "create") with
    | none => Except.error (Raised.httpError 405
        ("Create is not allowed for " ++ c.typeName))
    | some f => pure f
  let params ← parse_request srv req
  let _ ← validate_params srv params c.typeName "create"
  let name ← (createFn (c.model_args ++ [params])).mapError Raised.kerr
  let res := c.mkResource name
  let got ← Resource.get model res
  pure (201, got.2)

/-- `Collection._get_resources` followed by `Collection.get`: a model
without `"<type>_get_list"` yields the empty member list
(`AttributeError` is swallowed); otherwise each listed identifier is
turned into a member resource and looked up, and `get` renders the list
of the members' `data` under the collection's type name (status 200). -/
def Collection.get (model : Model) (c : CollectionData) : Except Raised (Nat × Body) := do
  let resources ← match model.methods (model_fn c.typeName "get_list") with
    | none => pure []
    | some f => do
        let idents ← (f c.model_args).mapError Raised.kerr
        let idList ← match idents with
          | JVal.arr l => pure l
          | _ => Except.error Raised.typeError
        idList.mapM (fun i => do
          let res := c.mkResource i
          let info ← Resource.lookup model res
          pure (res, info))
  let data ← resources.mapM (fun p => p.1.dataFn p.1.ident p.2)
  pure (200, Body.rendered c.typeName (JVal.arr data))

/-- The `except` clauses of `Collection.index`'s GET arm:
`InvalidOperation` 400, `NotFoundError` 404. -/
def collectionGetVerbMap : Except Raised (Nat × Body) → Outcome
  | .ok (s, b) => .response s b
  | .error (.kerr (.invalidOperation m)) =>
      .httpError 400 ("Invalid operation: \x27" ++ m ++ "\x27")
  | .error (.kerr (.notFoundError m)) =>
      .httpError 404 ("Not found: \x27" ++ m ++ "\x27")
  | .error e => e.escalate

/-- The `except` clauses of `Collection.index`'s POST arm: all five
domain errors are mapped. -/
def collectionPostVerbMap : Except Raised (Nat × Body) → Outcome
  | .ok (s, b) => .response s b
  | .error (.kerr (.missingParameter m)) =>
      .httpError 400 ("Missing parameter: \x27" ++ m ++ "\x27")
  | .error (.kerr (.invalidParameter m)) =>
      .httpError 400 ("Invalid parameter: \x27" ++ m ++ "\x27")
  | .error (.kerr (.operationFailed m)) =>
      .httpError 500 ("Operation Failed: \x27" ++ m ++ "\x27")
  | .error (.kerr (.invalidOperation m)) =>
      .httpError 400 ("Invalid operation: \x27" ++ m ++ "\x27")
  | .error (.kerr (.notFoundError m)) =>
      .httpError 404 ("Not found: \x27" ++ m ++ "\x27")
  | .error e => e.escalate

/-- `Collection.index`'s per-method dispatch and `except` clauses,
shared by the collection variants (which inherit `index` and override
only `create` / `_get_resources`). -/
def Collection.index_dispatch (getRes createRes : Except Raised (Nat × Body))
    (reqMethod : String) : Outcome :=
  match validate_method ["GET", "POST"] reqMethod with
  | .error e => e.escalate
  | .ok method =>
    if method = "GET" then
      collectionGetVerbMap getRes
    else
      collectionPostVerbMap createRes

/-- `Collection.index` for a plain (synchronous) collection. -/
def Collection.index (srv : Server) (model : Model) (c : CollectionData) (req : Request) :
    Outcome :=
  Collection.index_dispatch (Collection.get model c) (Collection.create srv model c req)
    req.method

/-- `AsyncCollection.create`: same capability gate, but the body is not
schema-validated, the model's create returns a task handle, and the
response is status 202 with `render("Task", task)`. -/
def AsyncCollection.create (srv : Server) (model : Model) (c : CollectionData)
    (req : Request) : Except Raised (Nat × Body) := do
  let createFn ← match model.methods (model_fn c.typeName "create") with
    | none => Except.error (Raised.httpError 405
        ("Create is not allowed for " ++ c.typeName))
    | some f => pure f
  let params ← parse_request srv req
  let task ← (createFn (c.model_args ++ [params])).mapError Raised.kerr
  pure (202, Body.rendered "Task" task)

/-- `AsyncCollection.index`: the inherited `Collection.index` with the
overridden `create`. -/
def AsyncCollection.index (srv : Server) (model : Model) (c : CollectionData)
    (req : Request) : Outcome :=
  Collection.index_dispatch (Collection.get model c)
    (AsyncCollection.create srv model c req) req.method

/-- `StoragePools.create`: capability gate and body parse (no schema
validation), model create, then the member's `get()` (inlined: lookup,
`data`, render — `info` stays cached on the instance) and a status of
202 when the member's `data` carries a `task_id` key, 201 otherwise. -/
def StoragePools.create (srv : Server) (model : Model) (c : CollectionData)
    (req : Request) : Except Raised (Nat × Body) := do
  let createFn ← match model.methods (model_fn c.typeName "create") with
    | none => Except.error (Raised.httpError 405
        ("Create is not allowed for " ++ c.typeName))
    | some f => pure f
  let params ← parse_request srv req
  let name ← (createFn (c.model_args ++ [params])).mapError Raised.kerr
  let res := c.mkResource name
  let info ← Resource.lookup model res
  let d ← res.dataFn res.ident info
  let status := if d.hasKey "task_id" then 202 else 201
  pure (status, Body.rendered res.typeName d)

/-- `StoragePools.index`: the inherited `Collection.index` with the
overridden `create` (the GET path of `StoragePools` additionally appends
the reserved ISO pool; only the POST path is modelled through here). -/
def StoragePools.index_post (srv : Server) (model : Model) (c : CollectionData)
    (req : Request) : Outcome :=
  Collection.index_dispatch (Collection.get model c)
    (StoragePools.create srv model c req) req.method

/-- Field read `self.info[k]` in a `data` property (`KeyError` when
absent). -/
def infoItem (info : JVal) (k : String) : Except Raised JVal :=
  match info.get? k with
  | some v => Except.ok v
  | none => Except.error (Raised.keyError k)

/-- `StoragePool.data`: the required info fields plus `name`, with
`task_id` added only when `self.info.get('task_id')` is truthy. -/
def storagePool_data (ident : JVal) (info : JVal) : Except Raised JVal := do
  let state ← infoItem info "state"
  let capacity ← infoItem info "capacity"
  let allocated ← infoItem info "allocated"
  let available ← infoItem info "available"
  let path ← infoItem info "path"
  let source ← infoItem info "source"
  let typ ← infoItem info "type"
  let nr_volumes ← infoItem info "nr_volumes"
  let autostart ← infoItem info "autostart"
  let res := JVal.obj [("name", ident), ("state", state), ("capacity", capacity),
    ("allocated", allocated), ("available", available), ("path", path),
    ("source", source), ("type", typ), ("nr_volumes", nr_volumes),
    ("autostart", autostart)]
  match info.get? "task_id" with
  | some v => if v.truthy then pure (res.setKey "task_id" v) else pure res
  | none => pure res

/-- `StorageVolume.data`: required fields plus the optional
`os_version` / `os_distro` / `bootable` fields when truthy. -/
def storageVolume_data (ident : JVal) (info : JVal) : Except Raised JVal := do
  let typ ← infoItem info "type"
  let capacity ← infoItem info "capacity"
  let allocation ← infoItem info "allocation"
  let path ← infoItem info "path"
  let format ← infoItem info "format"
  let res := JVal.obj [("name", ident), ("type", typ), ("capacity", capacity),
    ("allocation", allocation), ("path", path), ("format", format)]
  let addOpt := fun (acc : JVal) (k : String) =>
    match info.get? k with
    | some v => if v.truthy then acc.setKey k v else acc
    | none => acc
  pure (addOpt (addOpt (addOpt res "os_version") "os_distro") "bootable")

/-- `Template.data`: the template's projection of `info` (`folder`
defaulting to `[]`). -/
def template_data (ident : JVal) (info : JVal) : Except Raised JVal := do
  let icon ← infoItem info "icon"
  let os_distro ← infoItem info "os_distro"
  let os_version ← infoItem info "os_version"
  let cpus ← infoItem info "cpus"
  let memory ← infoItem info "memory"
  let cdrom ← infoItem info "cdrom"
  let disks ← infoItem info "disks"
  let storagepool ← infoItem info "storagepool"
  let folder := (info.get? "folder").getD (JVal.arr [])
  pure (JVal.obj [("name", ident), ("icon", icon), ("os_distro", os_distro),
    ("os_version", os_version), ("cpus", cpus), ("memory", memory),
    ("cdrom", cdrom), ("disks", disks), ("storagepool", storagepool),
    ("folder", folder)])

/-- The `StoragePool` resource as `StoragePools` constructs members:
class name `storagepool`, allow-list `["autostart"]`, URI template
`/storagepools/%s`. -/
def StoragePool.mk (ident : JVal) : ResourceData :=
  { typeName := "storagepool"
    ident := ident
    model_args := [ident]
    update_params := some ["autostart"]
    uri_fmt := "/storagepools/%s"
    dataFn := storagePool_data }

/-- The `StorageVolume` resource (nested under a pool): model args
`(pool, ident)`, URI template `/storagepools/%s/storagevolumes/%s`,
`update_params` left at the base class's `[]`. -/
def StorageVolume.mk (pool ident : JVal) : ResourceData :=
  { typeName := "storagevolume"
    ident := ident
    model_args := [pool, ident]
    update_params := some []
    uri_fmt := "/storagepools/%s/storagevolumes/%s"
    dataFn := storageVolume_data }

/-- The `Template` resource: its declared `update_params` allow-list and
URI template. -/
def Template.mk (ident : JVal) : ResourceData :=
  { typeName := "template"
    ident := ident
    model_args := [ident]
    update_params := some ["name", "folder", "icon", "os_distro", "storagepool",
      "os_version", "cpus", "memory", "cdrom", "disks"]
    uri_fmt := "/templates/%s"
    dataFn := template_data }

/-- The `StoragePools` collection: class name `storagepools`, empty
`model_args` / `resource_args`, members built as `StoragePool`s. -/
def StoragePools.mkCollection : CollectionData :=
  { typeName := "storagepools"
    model_args := []
    mkResource := StoragePool.mk }

/-- The `Templates` collection. -/
def Templates.mkCollection : CollectionData :=
  { typeName := "templates"
    model_args := []
    mkResource := Template.mk }

/-- The `DebugReports` asynchronous collection (class name
`debugreports`); its member constructor is irrelevant to the overridden
`create`, which renders the task handle directly. -/
def DebugReports.mkCollection : CollectionData :=
  { typeName := "debugreports"
    model_args := []
    mkResource := fun ident =>
      { typeName := "debugreport"
        ident := ident
        model_args := [ident]
        update_params := some []
        uri_fmt := ""
        dataFn := fun i info => do
          let file ← infoItem info "file"
          let time ← infoItem info "ctime"
          pure (JVal.obj [("name", i), ("file", file), ("time", time)]) } }

/-- `Task.data`: the task handle's projection of `info`. -/
def task_data (ident : JVal) (info : JVal) : Except Raised JVal := do
  let status ← infoItem info "status"
  let message ← infoItem info "message"
  pure (JVal.obj [("id", ident), ("status", status), ("message", message)])

/-- The `Task` resource (class name `task`; no `uri_fmt` attribute is set
by the source, rendered here as the empty template, never dereferenced). -/
def Task.mk (ident : JVal) : ResourceData :=
  { typeName := "task"
    ident := ident
    model_args := [ident]
    update_params := some []
    uri_fmt := ""
    dataFn := task_data }

/-- The `Tasks` collection. -/
def Tasks.mkCollection : CollectionData :=
  { typeName := "tasks"
    model_args := []
    mkResource := Task.mk }

/-- Build a model that answers one convention name with the given
method and otherwise defers (fixture machinery for the theorems). -/
def Model.override (m : Model) (name : String) (f : List JVal → Except KError JVal) :
    Model :=
  { methods := fun n => if n = name then some f else m.methods n }

/-- A model layer exposing no method at all. -/
def emptyModel : Model := { methods := fun _ => none }

/-- A POST request with a JSON body declaring `Content-Length`. -/
def postReq : Request :=
  { method := "POST"
    headers := [("Content-Length", "2"), ("Content-Type", "application/json")]
    rawbody := "\x7b\x7d" }

/-- A GET request. -/
def getReq : Request :=
  { method := "GET", headers := [], rawbody := "" }

/-- A DELETE request. -/
def deleteReq : Request :=
  { method := "DELETE", headers := [], rawbody := "" }

/-- A PUT request with a JSON body declaring `Content-Length`. -/
def putReq : Request :=
  { method := "PUT"
    headers := [("Content-Length", "2"), ("Content-Type", "application/json")]
    rawbody := "\x7b\x7d" }

/-- A server whose JSON decoder yields the empty object, with no API
schema loaded. -/
def c1Srv : Server := { jsonLoads := fun _ => some (JVal.obj []), api_schema := none }

/-- A model for a synchronous create: `tasks_create` yields identifier
`7`, whose lookup has a status and a message. -/
def c1SyncModel : Model := { methods := fun n =>
  if n = "tasks_create" then some (fun _ => Except.ok (JVal.str "7"))
  else if n = "task_lookup" then some (fun _ => Except.ok (JVal.obj
    [("status", JVal.str "running"), ("message", JVal.str "started")]))
  else none }

/-- A model for an asynchronous create: `debugreports_create` returns a
task handle. -/
def c1AsyncModel : Model := { methods := fun n =>
  if n = "debugreports_create" then some (fun _ => Except.ok (JVal.obj
    [("id", JVal.num 1)]))
  else none }

/-- Looked-up storage-pool info without a `task_id`. -/
def spInfoNoTask : JVal := JVal.obj
  [("state", JVal.str "active"), ("capacity", JVal.num 100),
   ("allocated", JVal.num 50), ("available", JVal.num 50),
   ("path", JVal.str "/var/lib"), ("source", JVal.obj []),
   ("type", JVal.str "dir"), ("nr_volumes", JVal.num 3),
   ("autostart", JVal.bool true)]

/-- Looked-up storage-pool info carrying a truthy `task_id` (a pool
whose construction runs as a background task). -/
def spInfoTask : JVal := JVal.obj
  [("state", JVal.str "building"), ("capacity", JVal.num 100),
   ("allocated", JVal.num 0), ("available", JVal.num 100),
   ("path", JVal.str "/var/lib"), ("source", JVal.obj []),
   ("type", JVal.str "logical"), ("nr_volumes", JVal.num 0),
   ("autostart", JVal.bool false), ("task_id", JVal.num 5)]

/-- Storage-pool model whose created pool looks up without `task_id`. -/
def c1SpModelPlain : Model := { methods := fun n =>
  if n = "storagepools_create" then some (fun _ => Except.ok (JVal.str "p1"))
  else if n = "storagepool_lookup" then some (fun _ => Except.ok spInfoNoTask)
  else none }

/-- Storage-pool model whose created pool looks up with a `task_id`. -/
def c1SpModelTask : Model := { methods := fun n =>
  if n = "storagepools_create" then some (fun _ => Except.ok (JVal.str "p1"))
  else if n = "storagepool_lookup" then some (fun _ => Except.ok spInfoTask)
  else none }

/-- A server whose decoder yields a body with a key outside every
allow-list. -/
def c2Srv : Server :=
  { jsonLoads := fun _ => some (JVal.obj [("bogus", JVal.num 1)]), api_schema := none }

/-- A server whose decoder yields `\x7b"memory": 2048\x7d`. -/
def c3Srv : Server :=
  { jsonLoads := fun _ => some (JVal.obj [("memory", JVal.num 2048)]), api_schema := none }

/-- Model whose `template_update` renames the template to `t2`. -/
def c3RenameModel : Model := { methods := fun n =>
  if n = "template_update" then some (fun _ => Except.ok (JVal.str "t2"))
  else none }

/-- Looked-up template info. -/
def tInfo : JVal := JVal.obj
  [("icon", JVal.str "i.png"), ("os_distro", JVal.str "fedora"),
   ("os_version", JVal.str "19"), ("cpus", JVal.num 2),
   ("memory", JVal.num 2048), ("cdrom", JVal.str "x.iso"),
   ("disks", JVal.arr []), ("storagepool", JVal.str "default")]

/-- Model whose `template_update` keeps the identifier `t1` and whose
lookup yields `tInfo`. -/
def c3KeepModel : Model := { methods := fun n =>
  if n = "template_update" then some (fun _ => Except.ok (JVal.str "t1"))
  else if n = "template_lookup" then some (fun _ => Except.ok tInfo)
  else none }

/-- A server whose decoder yields `\x7b"name": "t2"\x7d` (an allowed
update key for templates). -/
def c4Srv : Server :=
  { jsonLoads := fun _ => some (JVal.obj [("name", JVal.str "t2")]), api_schema := none }

/-- Model whose `template_update` raises `OperationFailed`. -/
def c4FailModel : Model :=
  { methods := fun n =>
      if n = "template_update" then some (fun _ => Except.error (KError.operationFailed "disk full"))
      else none }

/-- Model raising one distinct domain error per operation, to exercise
each arm of the status mapping. -/
def c4ArmsModel : Model :=
  { methods := fun n =>
      if n = "template_lookup" then some (fun _ => Except.error (KError.notFoundError "nope"))
      else if n = "template_delete" then some (fun _ => Except.error (KError.operationFailed "boom"))
      else if n = "template_update" then some (fun _ => Except.error (KError.invalidParameter "bad"))
      else if n = "storagepool_activate" then some (fun _ => Except.error (KError.invalidOperation "state"))
      else none }

/-- A server whose decoder yields `\x7b"size": 10\x7d`. -/
def resizeSrv : Server :=
  { jsonLoads := fun _ => some (JVal.obj [("size", JVal.num 10)]), api_schema := none }

/-- Model implementing `storagevolume_resize`. -/
def resizeModel : Model := { methods := fun n =>
  if n = "storagevolume_resize" then some (fun _ => Except.ok JVal.nul)
  else none }

/-- `POST /storagepools/p1/storagevolumes/v1/resize` with body
`\x7b"size": 10\x7d`. -/
def resizeReq : Request :=
  { method := "POST"
    headers := [("Content-Length", "12"), ("Content-Type", "application/json")]
    rawbody := "\x7b\x22size\x22: 10\x7d" }

/-- Model implementing only `template_delete`, successfully. -/
def c7DelModel : Model := { methods := fun n =>
  if n = "template_delete" then some (fun _ => Except.ok JVal.nul)
  else none }

/-- A request declaring a non-JSON content type. -/
def c8HtmlReq : Request :=
  { method := "POST"
    headers := [("Content-Length", "4"), ("Content-Type", "text/html")]
    rawbody := "oops" }

/-- A request declaring JSON whose body will not decode. -/
def c8BadJsonReq : Request :=
  { method := "POST"
    headers := [("Content-Length", "4"), ("Content-Type", "application/json")]
    rawbody := "oops" }

/-- A server whose decoder always fails. -/
def cSrvNoParse : Server := { jsonLoads := fun _ => none, api_schema := none }

/-- A validator producing two error messages for every document. -/
def c9Validator : SchemaValidator := { iterErrors := fun _ => ["a", "b"] }

/-- A server with the failing validator loaded as its API schema. -/
def c9Srv : Server := { jsonLoads := fun _ => none, api_schema := some c9Validator }

/-- A bodyless request: no `Content-Length`, a non-JSON content type and
undecodable bytes. -/
def c10Req : Request :=
  { method := "POST"
    headers := [("Content-Type", "text/html")]
    rawbody := "not json" }

/-- A validator accepting every document. -/
def c9OkValidator : SchemaValidator := { iterErrors := fun _ => [] }

/-- A server with the accepting validator loaded as its API schema. -/
def c9SrvOk : Server := { jsonLoads := fun _ => none, api_schema := some c9OkValidator }

/-- The resize request with the non-POST method token `OS` (a substring
of `POST`). -/
def osReq : Request :=
  { method := "OS"
    headers := [("Content-Length", "12"), ("Content-Type", "application/json")]
    rawbody := "\x7b\x22size\x22: 10\x7d" }

theorem Model.override_same (m : Model) (name : String)
    (f : List JVal → Except KError JVal) :
    (m.override name f).methods name = some f := by
  simp [Model.override]

theorem exceptBind_ok {α β ε : Type} (a : α) (f : α → Except ε β) :
    (Except.ok a : Except ε α) >>= f = f a := rfl

theorem exceptBind_err {α β ε : Type} (e : ε) (f : α → Except ε β) :
    (Except.error e : Except ε α) >>= f = Except.error e := rfl

theorem exceptPure {α ε : Type} (a : α) : (pure a : Except ε α) = Except.ok a := rfl

theorem exceptMapError_ok {α ε ε2 : Type} (a : α) (f : ε → ε2) :
    (Except.ok a : Except ε α).mapError f = Except.ok a := rfl

theorem exceptMapError_err {α ε ε2 : Type} (e : ε) (f : ε → ε2) :
    (Except.error e : Except ε α).mapError f = Except.error (f e) := rfl

theorem Resource.index_eq_get (srv : Server) (model : Model) (r : ResourceData)
    (req : Request) (h : pyUpper req.method = "GET") :
    Resource.index srv model r req = resourceGetVerbMap (Resource.get model r) := by
  simp only [Resource.index, validate_method, h]
  rfl

theorem Resource.index_eq_delete (srv : Server) (model : Model) (r : ResourceData)
    (req : Request) (h : pyUpper req.method = "DELETE") :
    Resource.index srv model r req = resourceDeleteVerbMap (Resource.delete model r) := by
  simp only [Resource.index, validate_method, h]
  rfl

theorem Resource.index_eq_put (srv : Server) (model : Model) (r : ResourceData)
    (req : Request) (h : pyUpper req.method = "PUT") :
    Resource.index srv model r req = resourcePutVerbMap (Resource.update srv model r req) := by
  simp only [Resource.index, validate_method, h]
  rfl

theorem Collection.index_dispatch_eq_get (g c : Except Raised (Nat × Body))
    (m : String) (h : pyUpper m = "GET") :
    Collection.index_dispatch g c m = collectionGetVerbMap g := by
  simp only [Collection.index_dispatch, validate_method, h]
  rfl

theorem Collection.index_dispatch_eq_post (g c : Except Raised (Nat × Body))
    (m : String) (h : pyUpper m = "POST") :
    Collection.index_dispatch g c m = collectionPostVerbMap c := by
  simp only [Collection.index_dispatch, validate_method, h]
  rfl

/-- C2: for every PUT on a resource whose `update_params` allow-list is
non-null, a parsed body containing any key outside the allow-list yields
HTTP 405 with a message listing exactly the offending keys, and the
model's `"<type>_update"` method is never invoked — the outcome is the
same for every update method `f` installed on the model. -/
theorem claim_C2_put_allowlist
    (srv : Server) (model : Model) (r : ResourceData) (req : Request)
    (f : List JVal → Except KError JVal)
    (params : JVal) (allowed : List String)
    (hm : pyUpper req.method = "PUT")
    (hparse : parse_request srv req = .ok params)
    (hval : validate_params srv params r.typeName "update" = .ok ())
    (hallow : r.update_params = some allowed)
    (hinv : params.keys.filter (fun v => !(allowed.contains v)) ≠ []) :
    Resource.index srv (model.override (model_fn r.typeName "update") f) r req
      = Outcome.httpError 405
          (pyStrListRepr (params.keys.filter (fun v => !(allowed.contains v)))
            ++ " are not allowed to be updated") := by
  rw [Resource.index_eq_put _ _ _ _ hm]
  have hup : Resource.update srv (model.override (model_fn r.typeName "update") f) r req
      = Except.error (Raised.httpError 405
          (pyStrListRepr (params.keys.filter (fun v => !(allowed.contains v)))
            ++ " are not allowed to be updated")) := by
    simp only [Resource.update, Model.override_same, Model.override, if_pos,
      hparse, hval, hallow, exceptBind_ok, exceptBind_err, exceptPure]
    rw [if_neg (by simpa [List.isEmpty_iff] using hinv)]
  rw [hup]
  rfl

/-- C2 witness: a body with the single bogus key `bogus` against the
template allow-list draws the 405 listing it, whatever the model's
update method would do. -/
theorem claim_C2_put_allowlist_witness :
    Resource.index c2Srv
        (emptyModel.override "template_update" (fun _ => Except.ok JVal.nul))
        (Template.mk (JVal.str "t1")) putReq
      = Outcome.httpError 405 "[\x27bogus\x27] are not allowed to be updated" := by
  exact claim_C2_put_allowlist c2Srv emptyModel (Template.mk (JVal.str "t1")) putReq
    (fun _ => Except.ok JVal.nul) (JVal.obj [("bogus", JVal.num 1)])
    ["name", "folder", "icon", "os_distro", "storagepool", "os_version", "cpus",
     "memory", "cdrom", "disks"]
    rfl rfl rfl rfl (by decide)

/-- C3: for every successful PUT, a model update returning a different
identifier draws a 303 redirect to the canonical URI re-templated with
the percent-quoted new identifier, while an unchanged identifier
re-renders through a fresh `get()` with status 200. -/
theorem claim_C3_update_redirect_or_refetch
    (srv : Server) (model : Model) (r : ResourceData) (req : Request)
    (f : List JVal → Except KError JVal)
    (params : JVal) (newIdent : String)
    (hm : pyUpper req.method = "PUT")
    (hupd : model.methods (model_fn r.typeName "update") = some f)
    (hparse : parse_request srv req = .ok params)
    (hval : validate_params srv params r.typeName "update" = .ok ())
    (hallow : ∀ allowed ∈ r.update_params,
        params.keys.filter (fun v => !(allowed.contains v)) = [])
    (hcall : f [r.ident, params] = .ok (.str newIdent)) :
    (JVal.beq (JVal.str newIdent) r.ident = false →
      Resource.index srv model r req
        = Outcome.redirect (pyFormat r.uri_fmt
            (r.model_args.dropLast ++ [JVal.str (pyquote newIdent)])) 303) ∧
    (JVal.beq (JVal.str newIdent) r.ident = true →
      ∀ info d, Resource.lookup model r = .ok info → r.dataFn r.ident info = .ok d →
        Resource.index srv model r req
          = Outcome.response 200 (Body.rendered r.typeName d)) := by
  have hup : Resource.update srv model r req
      = (if JVal.beq (JVal.str newIdent) r.ident then Resource.get model r
         else Except.error (Raised.redirect
            (pyFormat r.uri_fmt (r.model_args.dropLast ++ [JVal.str (pyquote newIdent)]))
            303)) := by
    simp only [Resource.update, hupd, hparse, hval, exceptBind_ok, exceptBind_err,
      exceptPure]
    cases hupp : r.update_params with
    | none =>
        simp only [exceptBind_ok, exceptPure, hcall, exceptMapError_ok]
    | some allowed =>
        have hfilter := hallow allowed (by rw [hupp]; rfl)
        simp only [hfilter, List.isEmpty_nil, if_pos, exceptBind_ok, exceptPure, hcall,
          exceptMapError_ok]
  constructor
  · intro hbeq
    rw [Resource.index_eq_put srv model r req hm, hup]
    simp only [hbeq, Bool.false_eq_true, if_false]
    rfl
  · intro hbeq info d hlk hdata
    rw [Resource.index_eq_put srv model r req hm, hup]
    simp only [hbeq, if_true]
    simp only [Resource.get, hlk, hdata, exceptBind_ok, exceptPure]
    rfl

/-- C3 witness: renaming `t1` to `t2` redirects with 303 to
`/templates/t2`; an identity-preserving update re-renders the template
with status 200. -/
theorem claim_C3_update_redirect_or_refetch_witness :
    Resource.index c3Srv c3RenameModel (Template.mk (JVal.str "t1")) putReq
      = Outcome.redirect "/templates/t2" 303 ∧
    Resource.index c3Srv c3KeepModel (Template.mk (JVal.str "t1")) putReq
      = Outcome.response 200 (Body.rendered "template" (JVal.obj
          [("name", JVal.str "t1"), ("icon", JVal.str "i.png"),
           ("os_distro", JVal.str "fedora"), ("os_version", JVal.str "19"),
           ("cpus", JVal.num 2), ("memory", JVal.num 2048),
           ("cdrom", JVal.str "x.iso"), ("disks", JVal.arr []),
           ("storagepool", JVal.str "default"), ("folder", JVal.arr [])])) := by
  constructor
  · exact (claim_C3_update_redirect_or_refetch c3Srv c3RenameModel
      (Template.mk (JVal.str "t1")) putReq (fun _ => Except.ok (JVal.str "t2"))
      (JVal.obj [("memory", JVal.num 2048)]) "t2"
      rfl rfl rfl rfl (by decide) rfl).1 rfl
  · exact (claim_C3_update_redirect_or_refetch c3Srv c3KeepModel
      (Template.mk (JVal.str "t1")) putReq (fun _ => Except.ok (JVal.str "t1"))
      (JVal.obj [("memory", JVal.num 2048)]) "t1"
      rfl rfl rfl rfl (by decide) rfl).2 rfl tInfo _ rfl rfl

/-- C4 counterexample: on PUT, `OperationFailed` raised by the model's
update is caught by no `except` clause of `Resource.index` — it escapes
this layer instead of being mapped to the claimed 500. -/
theorem claim_C4_counterexample :
    Resource.index c4Srv c4FailModel (Template.mk (JVal.str "t1")) putReq
      = Outcome.unhandled (Raised.kerr (KError.operationFailed "disk full")) := by
  rfl

/-- C4 (amended): the status mapping holds exactly for the errors each
handler names.  The GET arm maps `NotFoundError` 404,
`InvalidOperation` 400 and `OperationFailed` 406; the DELETE arm maps
`OperationFailed` 500, `InvalidOperation` 400 and `NotFoundError` 404;
the PUT arm maps `InvalidParameter` 400, `InvalidOperation` 400 and
`NotFoundError` 404; generated action handlers map all five.  A
`MissingParameter` or `InvalidParameter` on GET or DELETE, and a
`MissingParameter` or `OperationFailed` on PUT, escapes unhandled. -/
theorem claim_C4_error_status_mapping :
    (∀ (srv : Server) (model : Model) (r : ResourceData) (req : Request)
        (f : List JVal → Except KError JVal) (e : KError),
      pyUpper req.method = "GET" →
      model.methods (model_fn r.typeName "lookup") = some f →
      f r.model_args = .error e →
      Resource.index srv model r req = (match e with
        | .notFoundError m => Outcome.httpError 404 ("Not found: \x27" ++ m ++ "\x27")
        | .invalidOperation m =>
            Outcome.httpError 400 ("Invalid operation: \x27" ++ m ++ "\x27")
        | .operationFailed m =>
            Outcome.httpError 406 ("Operation failed: \x27" ++ m ++ "\x27")
        | .missingParameter m => Outcome.unhandled (.kerr (.missingParameter m))
        | .invalidParameter m => Outcome.unhandled (.kerr (.invalidParameter m)))) ∧
    (∀ (srv : Server) (model : Model) (r : ResourceData) (req : Request)
        (f : List JVal → Except KError JVal) (e : KError),
      pyUpper req.method = "DELETE" →
      model.methods (model_fn r.typeName "delete") = some f →
      f r.model_args = .error e →
      Resource.index srv model r req = (match e with
        | .operationFailed m =>
            Outcome.httpError 500 ("Operation Failed: \x27" ++ m ++ "\x27")
        | .invalidOperation m =>
            Outcome.httpError 400 ("Invalid operation: \x27" ++ m ++ "\x27")
        | .notFoundError m => Outcome.httpError 404 ("Not found: \x27" ++ m ++ "\x27")
        | .missingParameter m => Outcome.unhandled (.kerr (.missingParameter m))
        | .invalidParameter m => Outcome.unhandled (.kerr (.invalidParameter m)))) ∧
    (∀ (srv : Server) (model : Model) (r : ResourceData) (req : Request)
        (f : List JVal → Except KError JVal) (e : KError) (params : JVal),
      pyUpper req.method = "PUT" →
      model.methods (model_fn r.typeName "update") = some f →
      parse_request srv req = .ok params →
      validate_params srv params r.typeName "update" = .ok () →
      (∀ allowed ∈ r.update_params,
        params.keys.filter (fun v => !(allowed.contains v)) = []) →
      f [r.ident, params] = .error e →
      Resource.index srv model r req = (match e with
        | .invalidParameter m =>
            Outcome.httpError 400 ("Invalid parameter: \x27" ++ m ++ "\x27")
        | .invalidOperation m =>
            Outcome.httpError 400 ("Invalid operation: \x27" ++ m ++ "\x27")
        | .notFoundError m => Outcome.httpError 404 ("Not found: \x27" ++ m ++ "\x27")
        | .missingParameter m => Outcome.unhandled (.kerr (.missingParameter m))
        | .operationFailed m => Outcome.unhandled (.kerr (.operationFailed m)))) ∧
    (∀ (srv : Server) (model : Model) (r : ResourceData) (req : Request)
        (action_name : String)
        (f : List JVal → Except KError JVal) (e : KError),
      pyUpper req.method = "POST" →
      model.methods (model_fn r.typeName action_name) = some f →
      f r.model_args = .error e →
      Resource.generate_action_handler srv model r action_name none req
        = (match e with
        | .missingParameter m =>
            Outcome.httpError 400 ("Missing parameter: \x27" ++ m ++ "\x27")
        | .invalidParameter m =>
            Outcome.httpError 400 ("Invalid parameter: \x27" ++ m ++ "\x27")
        | .invalidOperation m =>
            Outcome.httpError 400 ("Invalid operation: \x27" ++ m ++ "\x27")
        | .operationFailed m =>
            Outcome.httpError 500 ("Operation Failed: \x27" ++ m ++ "\x27")
        | .notFoundError m =>
            Outcome.httpError 404 ("Not found: \x27" ++ m ++ "\x27"))) := by
  refine ⟨fun srv model r req f e hm hlk hcall => ?_,
          fun srv model r req f e hm hdel hcall => ?_,
          fun srv model r req f e params hm hupd hparse hval hallow hcall => ?_,
          fun srv model r req action_name f e hm hact hcall => ?_⟩
  · rw [Resource.index_eq_get srv model r req hm]
    simp only [Resource.get, Resource.lookup, hlk, hcall, exceptMapError_err,
      exceptBind_err]
    cases e <;> rfl
  · rw [Resource.index_eq_delete srv model r req hm]
    simp only [Resource.delete, hdel, hcall]
    cases e <;> rfl
  · rw [Resource.index_eq_put srv model r req hm]
    simp only [Resource.update, hupd, hparse, hval, exceptBind_ok, exceptBind_err,
      exceptPure]
    cases hupp : r.update_params with
    | none =>
        simp only [exceptBind_ok, exceptPure, hcall, exceptMapError_err, exceptBind_err]
        cases e <;> rfl
    | some allowed =>
        have hfilter := hallow allowed (by rw [hupp]; rfl)
        simp only [hfilter, List.isEmpty_nil, if_pos, exceptBind_ok, exceptPure, hcall,
          exceptMapError_err, exceptBind_err]
        cases e <;> rfl
  · simp only [Resource.generate_action_handler, validate_method_str, hm]
    simp only [hact, hcall, exceptBind_ok, exceptBind_err, exceptPure,
      exceptMapError_err]
    cases e <;> rfl

/-- C4 witness: one concrete instance per arm of the amended mapping —
GET 404, DELETE 500, PUT 400, action 400. -/
theorem claim_C4_error_status_mapping_witness :
    Resource.index c4Srv c4ArmsModel (Template.mk (JVal.str "t1")) getReq
      = Outcome.httpError 404 "Not found: \x27nope\x27" ∧
    Resource.index c4Srv c4ArmsModel (Template.mk (JVal.str "t1")) deleteReq
      = Outcome.httpError 500 "Operation Failed: \x27boom\x27" ∧
    Resource.index c4Srv c4ArmsModel (Template.mk (JVal.str "t1")) putReq
      = Outcome.httpError 400 "Invalid parameter: \x27bad\x27" ∧
    Resource.generate_action_handler c4Srv c4ArmsModel (StoragePool.mk (JVal.str "p1"))
        "activate" none postReq
      = Outcome.httpError 400 "Invalid operation: \x27state\x27" := by
  refine ⟨?_, ?_, ?_, ?_⟩
  · exact claim_C4_error_status_mapping.1 c4Srv c4ArmsModel
      (Template.mk (JVal.str "t1")) getReq _ (KError.notFoundError "nope") rfl rfl rfl
  · exact claim_C4_error_status_mapping.2.1 c4Srv c4ArmsModel
      (Template.mk (JVal.str "t1")) deleteReq _ (KError.operationFailed "boom")
      rfl rfl rfl
  · exact claim_C4_error_status_mapping.2.2.1 c4Srv c4ArmsModel
      (Template.mk (JVal.str "t1")) putReq _ (KError.invalidParameter "bad")
      (JVal.obj [("name", JVal.str "t2")]) rfl rfl rfl rfl (by decide) rfl
  · exact claim_C4_error_status_mapping.2.2.2 c4Srv c4ArmsModel
      (StoragePool.mk (JVal.str "p1")) postReq "activate" _
      (KError.invalidOperation "state") rfl rfl rfl

/-- C1 counterexample: a successful `StoragePools` create whose new
pool looks up with a `task_id` responds 202 *with the rendered member
pool* (template `storagepool`, not a Task), so a 202 create response
can carry a rendered member resource. -/
theorem claim_C1_counterexample :
    StoragePools.index_post c1Srv c1SpModelTask StoragePools.mkCollection postReq
      = Outcome.response 202 (Body.rendered "storagepool" (JVal.obj
          [("name", JVal.str "p1"), ("state", JVal.str "building"),
           ("capacity", JVal.num 100), ("allocated", JVal.num 0),
           ("available", JVal.num 100), ("path", JVal.str "/var/lib"),
           ("source", JVal.obj []), ("type", JVal.str "logical"),
           ("nr_volumes", JVal.num 0), ("autostart", JVal.bool false),
           ("task_id", JVal.num 5)])) := by
  rfl

/-- C1 (amended): a successful create on a plain collection responds
201 with the freshly rendered member, and on an asynchronous collection
202 with the rendered Task; `StoragePools.create`, however, always
renders the member pool and picks 202 exactly when the member's data
carries a `task_id` key, 201 otherwise. -/
theorem claim_C1_create_status_and_bodies :
    (∀ (srv : Server) (model : Model) (c : CollectionData) (req : Request)
        (f : List JVal → Except KError JVal) (params name info d : JVal),
      pyUpper req.method = "POST" →
      model.methods (model_fn c.typeName "create") = some f →
      parse_request srv req = .ok params →
      validate_params srv params c.typeName "create" = .ok () →
      f (c.model_args ++ [params]) = .ok name →
      Resource.lookup model (c.mkResource name) = .ok info →
      (c.mkResource name).dataFn (c.mkResource name).ident info = .ok d →
      Collection.index srv model c req
        = Outcome.response 201 (Body.rendered (c.mkResource name).typeName d)) ∧
    (∀ (srv : Server) (model : Model) (c : CollectionData) (req : Request)
        (f : List JVal → Except KError JVal) (params task : JVal),
      pyUpper req.method = "POST" →
      model.methods (model_fn c.typeName "create") = some f →
      parse_request srv req = .ok params →
      f (c.model_args ++ [params]) = .ok task →
      AsyncCollection.index srv model c req
        = Outcome.response 202 (Body.rendered "Task" task)) ∧
    (∀ (srv : Server) (model : Model) (c : CollectionData) (req : Request)
        (f : List JVal → Except KError JVal) (params name info d : JVal),
      pyUpper req.method = "POST" →
      model.methods (model_fn c.typeName "create") = some f →
      parse_request srv req = .ok params →
      f (c.model_args ++ [params]) = .ok name →
      Resource.lookup model (c.mkResource name) = .ok info →
      (c.mkResource name).dataFn (c.mkResource name).ident info = .ok d →
      StoragePools.index_post srv model c req
        = Outcome.response (if d.hasKey "task_id" then 202 else 201)
            (Body.rendered (c.mkResource name).typeName d)) := by
  refine ⟨fun srv model c req f params name info d hm hcr hparse hval hcall hlk hdata => ?_,
          fun srv model c req f params task hm hcr hparse hcall => ?_,
          fun srv model c req f params name info d hm hcr hparse hcall hlk hdata => ?_⟩
  · simp only [Collection.index]
    rw [Collection.index_dispatch_eq_post _ _ _ hm]
    simp only [Collection.create, hcr, hparse, hval, hcall, exceptBind_ok, exceptPure,
      exceptMapError_ok, Resource.get, hlk, hdata]
    rfl
  · simp only [AsyncCollection.index]
    rw [Collection.index_dispatch_eq_post _ _ _ hm]
    simp only [AsyncCollection.create, hcr, hparse, hcall, exceptBind_ok, exceptPure,
      exceptMapError_ok]
    rfl
  · simp only [StoragePools.index_post]
    rw [Collection.index_dispatch_eq_post _ _ _ hm]
    simp only [StoragePools.create, hcr, hparse, hcall, exceptBind_ok, exceptPure,
      exceptMapError_ok, hlk, hdata]
    cases hk : d.hasKey "task_id" <;> rfl

/-- C1 witness: a plain collection create responds 201 with the
rendered member, an asynchronous one 202 with the rendered Task, and a
storage-pool create without `task_id` responds 201 with the member. -/
theorem claim_C1_create_status_and_bodies_witness :
    Collection.index c1Srv c1SyncModel Tasks.mkCollection postReq
      = Outcome.response 201 (Body.rendered "task" (JVal.obj
          [("id", JVal.str "7"), ("status", JVal.str "running"),
           ("message", JVal.str "started")])) ∧
    AsyncCollection.index c1Srv c1AsyncModel DebugReports.mkCollection postReq
      = Outcome.response 202 (Body.rendered "Task" (JVal.obj [("id", JVal.num 1)])) ∧
    StoragePools.index_post c1Srv c1SpModelPlain StoragePools.mkCollection postReq
      = Outcome.response 201 (Body.rendered "storagepool" (JVal.obj
          [("name", JVal.str "p1"), ("state", JVal.str "active"),
           ("capacity", JVal.num 100), ("allocated", JVal.num 50),
           ("available", JVal.num 50), ("path", JVal.str "/var/lib"),
           ("source", JVal.obj []), ("type", JVal.str "dir"),
           ("nr_volumes", JVal.num 3), ("autostart", JVal.bool true)])) := by
  refine ⟨?_, ?_, ?_⟩
  · exact claim_C1_create_status_and_bodies.1 c1Srv c1SyncModel Tasks.mkCollection
      postReq _ (JVal.obj []) (JVal.str "7")
      (JVal.obj [("status", JVal.str "running"), ("message", JVal.str "started")])
      (JVal.obj [("id", JVal.str "7"), ("status", JVal.str "running"),
        ("message", JVal.str "started")])
      rfl rfl rfl rfl rfl rfl rfl
  · exact claim_C1_create_status_and_bodies.2.1 c1Srv c1AsyncModel
      DebugReports.mkCollection postReq _ (JVal.obj []) (JVal.obj [("id", JVal.num 1)])
      rfl rfl rfl rfl
  · exact claim_C1_create_status_and_bodies.2.2 c1Srv c1SpModelPlain
      StoragePools.mkCollection postReq _ (JVal.obj []) (JVal.str "p1") spInfoNoTask
      (JVal.obj [("name", JVal.str "p1"), ("state", JVal.str "active"),
        ("capacity", JVal.num 100), ("allocated", JVal.num 50),
        ("available", JVal.num 50), ("path", JVal.str "/var/lib"),
        ("source", JVal.obj []), ("type", JVal.str "dir"),
        ("nr_volumes", JVal.num 3), ("autostart", JVal.bool true)])
      rfl rfl rfl rfl rfl rfl

/-- C5 counterexample: the method gate of a generated action handler
is `validate_method(('POST'))`, a plain-string substring test — the
non-POST method token `OS` passes it and the resize action executes
(internal redirect), instead of the claimed 405. -/
theorem claim_C5_counterexample :
    Resource.generate_action_handler resizeSrv resizeModel
        (StorageVolume.mk (JVal.str "p1") (JVal.str "v1")) "resize" (some ["size"])
        osReq
      = Outcome.internalRedirect "/storagepools/p1/storagevolumes/v1" := by
  rfl

/-- C5 (amended): a generated action handler accepts exactly the
methods whose uppercased name is a substring of `POST` — POST itself
but also fragments such as `OS` — and answers every method outside that
set, in particular every standard non-POST method, with 405; on an
accepted method it extracts the declared body-parameter keys in order,
appends their values after the resource's model arguments, invokes
`"<type>_<action>"`, and on success raises an internal redirect to the
resource's templated canonical URI. -/
theorem claim_C5_action_handler :
    (∀ (srv : Server) (model : Model) (r : ResourceData)
        (action_name : String) (action_args : Option (List String)) (req : Request),
      insideL (pyUpper req.method).toList "POST".toList = false →
      Resource.generate_action_handler srv model r action_name action_args req
        = Outcome.httpError 405 "") ∧
    (∀ (srv : Server) (model : Model) (r : ResourceData)
        (action_name : String) (action_args : Option (List String))
        (m : String) (headers : List (String × String)) (rawbody : String),
      m ∈ ["GET", "PUT", "DELETE", "HEAD", "OPTIONS", "PATCH", "TRACE", "CONNECT"] →
      Resource.generate_action_handler srv model r action_name action_args
          { method := m, headers := headers, rawbody := rawbody }
        = Outcome.httpError 405 "") ∧
    (∀ (srv : Server) (model : Model) (r : ResourceData) (req : Request)
        (action_name : String) (keys : List String)
        (f : List JVal → Except KError JVal) (params : JVal) (vals : List JVal)
        (v : JVal),
      insideL (pyUpper req.method).toList "POST".toList = true →
      parse_request srv req = .ok params →
      keys.mapM (fun key => (match params.get? key with
          | some w => Except.ok w
          | none => Except.error (Raised.keyError key) : Except Raised JVal))
        = Except.ok vals →
      model.methods (model_fn r.typeName action_name) = some f →
      f (r.model_args ++ vals) = .ok v →
      Resource.generate_action_handler srv model r action_name (some keys) req
        = Outcome.internalRedirect (pyFormat r.uri_fmt r.model_args)) := by
  refine ⟨?_, ?_, ?_⟩
  · intro srv model r action_name action_args req hm
    simp only [Resource.generate_action_handler, validate_method_str, hm,
      Bool.false_eq_true, if_false]
    rfl
  · intro srv model r action_name action_args m headers rawbody hm
    simp only [List.mem_cons, List.not_mem_nil, or_false] at hm
    rcases hm with rfl|rfl|rfl|rfl|rfl|rfl|rfl|rfl <;> rfl
  · intro srv model r req action_name keys f params vals v hm hparse hext hact hcall
    simp only [Resource.generate_action_handler, validate_method_str, hm, if_true]
    simp only [hparse, exceptBind_ok, exceptPure, hext, hact, hcall, exceptMapError_ok]
    rfl

/-- C5 witness: `POST /storagepools/p1/storagevolumes/v1/resize` with
body size 10 invokes `storagevolume_resize(p1, v1, 10)` and redirects
internally to `/storagepools/p1/storagevolumes/v1`; a GET on the same
handler draws 405, as does the method `POSTING`, while the substring
token `OS` slips through the gate and the action executes. -/
theorem claim_C5_action_handler_witness :
    Resource.generate_action_handler resizeSrv resizeModel
        (StorageVolume.mk (JVal.str "p1") (JVal.str "v1")) "resize" (some ["size"])
        resizeReq
      = Outcome.internalRedirect "/storagepools/p1/storagevolumes/v1" ∧
    Resource.generate_action_handler resizeSrv resizeModel
        (StorageVolume.mk (JVal.str "p1") (JVal.str "v1")) "resize" (some ["size"])
        getReq
      = Outcome.httpError 405 "" ∧
    Resource.generate_action_handler resizeSrv resizeModel
        (StorageVolume.mk (JVal.str "p1") (JVal.str "v1")) "resize" (some ["size"])
        { method := "POSTING", headers := [], rawbody := "" }
      = Outcome.httpError 405 "" ∧
    Resource.generate_action_handler resizeSrv resizeModel
        (StorageVolume.mk (JVal.str "p1") (JVal.str "v1")) "resize" (some ["size"])
        osReq
      = Outcome.internalRedirect "/storagepools/p1/storagevolumes/v1" := by
  refine ⟨?_, ?_, ?_, ?_⟩
  · exact claim_C5_action_handler.2.2 resizeSrv resizeModel
      (StorageVolume.mk (JVal.str "p1") (JVal.str "v1")) resizeReq "resize" ["size"]
      (fun _ => Except.ok JVal.nul) (JVal.obj [("size", JVal.num 10)])
      [JVal.num 10] JVal.nul rfl rfl rfl rfl rfl
  · exact claim_C5_action_handler.2.1 resizeSrv resizeModel
      (StorageVolume.mk (JVal.str "p1") (JVal.str "v1")) "resize" (some ["size"])
      "GET" [] "" (by decide)
  · exact claim_C5_action_handler.1 resizeSrv resizeModel
      (StorageVolume.mk (JVal.str "p1") (JVal.str "v1")) "resize" (some ["size"])
      { method := "POSTING", headers := [], rawbody := "" } rfl
  · exact claim_C5_action_handler.2.2 resizeSrv resizeModel
      (StorageVolume.mk (JVal.str "p1") (JVal.str "v1")) osReq "resize" ["size"]
      (fun _ => Except.ok JVal.nul) (JVal.obj [("size", JVal.num 10)])
      [JVal.num 10] JVal.nul rfl rfl rfl rfl rfl

/-- C6: a GET on a collection whose model lacks `"<type>_get_list"`
responds 200 with the empty rendered list, never an error. -/
theorem claim_C6_missing_get_list
    (srv : Server) (model : Model) (c : CollectionData) (req : Request)
    (hm : pyUpper req.method = "GET")
    (hno : model.methods (model_fn c.typeName "get_list") = none) :
    Collection.index srv model c req
      = Outcome.response 200 (Body.rendered c.typeName (JVal.arr [])) := by
  simp only [Collection.index]
  rw [Collection.index_dispatch_eq_get _ _ _ hm]
  simp only [Collection.get, hno, exceptBind_ok, exceptPure]
  rfl

/-- C6 witness: `GET /templates` against a model with no
`templates_get_list` yields 200 and an empty array. -/
theorem claim_C6_missing_get_list_witness :
    Collection.index c1Srv emptyModel Templates.mkCollection getReq
      = Outcome.response 200 (Body.rendered "templates" (JVal.arr [])) := by
  exact claim_C6_missing_get_list c1Srv emptyModel Templates.mkCollection getReq rfl rfl

/-- C7: a DELETE on a resource whose model lacks `"<type>_delete"`
responds 405 (an `HTTPError`, not an escaping exception); a DELETE
whose model call succeeds responds 204 with an empty body. -/
theorem claim_C7_delete_capability :
    (∀ (srv : Server) (model : Model) (r : ResourceData) (req : Request),
      pyUpper req.method = "DELETE" →
      model.methods (model_fn r.typeName "delete") = none →
      Resource.index srv model r req
        = Outcome.httpError 405 ("Delete is not allowed for " ++ r.typeName)) ∧
    (∀ (srv : Server) (model : Model) (r : ResourceData) (req : Request)
        (f : List JVal → Except KError JVal) (v : JVal),
      pyUpper req.method = "DELETE" →
      model.methods (model_fn r.typeName "delete") = some f →
      f r.model_args = .ok v →
      Resource.index srv model r req = Outcome.response 204 Body.empty) := by
  constructor
  · intro srv model r req hm hno
    rw [Resource.index_eq_delete srv model r req hm]
    simp only [Resource.delete, hno]
    rfl
  · intro srv model r req f v hm hdel hcall
    rw [Resource.index_eq_delete srv model r req hm]
    simp only [Resource.delete, hdel, hcall]
    rfl

/-- C7 witness: `DELETE /templates/t1` without `template_delete` draws
405; with a succeeding `template_delete` it draws 204 and no body. -/
theorem claim_C7_delete_capability_witness :
    Resource.index c1Srv emptyModel (Template.mk (JVal.str "t1")) deleteReq
      = Outcome.httpError 405 "Delete is not allowed for template" ∧
    Resource.index c1Srv c7DelModel (Template.mk (JVal.str "t1")) deleteReq
      = Outcome.response 204 Body.empty := by
  constructor
  · exact claim_C7_delete_capability.1 c1Srv emptyModel (Template.mk (JVal.str "t1"))
      deleteReq rfl rfl
  · exact claim_C7_delete_capability.2 c1Srv c7DelModel (Template.mk (JVal.str "t1"))
      deleteReq _ JVal.nul rfl rfl rfl

/-- C8: with a body present, a `Content-Type` whose media types do not
include `application/json` draws 415; a JSON content type whose body
does not decode draws 400; a decodable JSON body parses. -/
theorem claim_C8_content_negotiation
    (srv : Server) (req : Request) (ct : String)
    (hcl : req.hasHeader "Content-Length" = true)
    (hct : req.header? "Content-Type" = some ct) :
    ((pySplit (Char.ofNat 44) ((pySplit (Char.ofNat 59) ct).headD ct)).contains
        "application/json" = false →
      parse_request srv req
        = .error (.httpError 415 "This API only supports \x27application/json\x27")) ∧
    ((pySplit (Char.ofNat 44) ((pySplit (Char.ofNat 59) ct).headD ct)).contains
        "application/json" = true →
      srv.jsonLoads req.rawbody = none →
      parse_request srv req = .error (.httpError 400 "Unable to parse JSON request")) ∧
    (∀ v, (pySplit (Char.ofNat 44) ((pySplit (Char.ofNat 59) ct).headD ct)).contains
        "application/json" = true →
      srv.jsonLoads req.rawbody = some v →
      parse_request srv req = .ok v) := by
  refine ⟨fun hmime => ?_, fun hmime hdec => ?_, fun v hmime hdec => ?_⟩
  · simp only [parse_request, hcl, mime_in_header, hct, hmime, Bool.true_eq_false,
      if_false, if_true]
    rfl
  · simp only [parse_request, hcl, mime_in_header, hct, hmime, hdec, Bool.true_eq_false,
      if_false, if_true]
  · simp only [parse_request, hcl, mime_in_header, hct, hmime, hdec, Bool.true_eq_false,
      if_false, if_true]

/-- C8 witness: a `text/html` body draws 415, an undecodable JSON body
draws 400, and a decodable one parses. -/
theorem claim_C8_content_negotiation_witness :
    parse_request cSrvNoParse c8HtmlReq
      = .error (.httpError 415 "This API only supports \x27application/json\x27") ∧
    parse_request cSrvNoParse c8BadJsonReq
      = .error (.httpError 400 "Unable to parse JSON request") ∧
    parse_request c1Srv postReq = .ok (JVal.obj []) := by
  refine ⟨?_, ?_, ?_⟩
  · exact (claim_C8_content_negotiation cSrvNoParse c8HtmlReq "text/html" rfl rfl).1 rfl
  · exact (claim_C8_content_negotiation cSrvNoParse c8BadJsonReq "application/json"
      rfl rfl).2.1 rfl rfl
  · exact (claim_C8_content_negotiation c1Srv postReq "application/json"
      rfl rfl).2.2 (JVal.obj []) rfl rfl

/-- C9: validation wraps the body under the `"<type>_<action>"` key; a
server without a loaded schema validates as a no-op, an accepting
validator passes, and a failing one raises a single `InvalidParameter`
whose message joins every validator message with semicolons. -/
theorem claim_C9_schema_validation
    (srv : Server) (params : JVal) (typeName action : String) :
    (srv.api_schema = none → validate_params srv params typeName action = .ok ()) ∧
    (∀ validator, srv.api_schema = some validator →
      validator.iterErrors (JVal.obj [(model_fn typeName action, params)]) = [] →
      validate_params srv params typeName action = .ok ()) ∧
    (∀ validator msgs, srv.api_schema = some validator →
      validator.iterErrors (JVal.obj [(model_fn typeName action, params)]) = msgs →
      msgs ≠ [] →
      validate_params srv params typeName action
        = .error (.kerr (.invalidParameter (String.intercalate "; " msgs)))) := by
  refine ⟨fun h => ?_, fun validator h hiter => ?_,
          fun validator msgs h hiter hne => ?_⟩
  · simp only [validate_params, h]
  · simp only [validate_params, h, hiter]
  · cases msgs with
    | nil => exact absurd rfl hne
    | cons a as => simp only [validate_params, h, hiter]

/-- C9 witness: no schema is a no-op, an accepting validator passes,
and a validator with messages `a` and `b` raises `InvalidParameter`
with message `a; b`. -/
theorem claim_C9_schema_validation_witness :
    validate_params c1Srv (JVal.obj []) "vms" "create" = .ok () ∧
    validate_params c9SrvOk (JVal.obj []) "vms" "create" = .ok () ∧
    validate_params c9Srv (JVal.obj []) "vms" "create"
      = .error (.kerr (.invalidParameter "a; b")) := by
  refine ⟨?_, ?_, ?_⟩
  · exact (claim_C9_schema_validation c1Srv (JVal.obj []) "vms" "create").1 rfl
  · exact (claim_C9_schema_validation c9SrvOk (JVal.obj []) "vms" "create").2.1
      c9OkValidator rfl rfl
  · exact (claim_C9_schema_validation c9Srv (JVal.obj []) "vms" "create").2.2
      c9Validator ["a", "b"] rfl rfl (by decide)

/-- C10: a request without a `Content-Length` header parses to the
empty parameter dict, whatever its content type or body bytes — the
body is not read and the content type is not checked. -/
theorem claim_C10_no_content_length
    (srv : Server) (req : Request)
    (h : req.hasHeader "Content-Length" = false) :
    parse_request srv req = .ok (JVal.obj []) := by
  simp only [parse_request, h]
  rfl

/-- C10 witness: a bodyless POST with a non-JSON content type and
undecodable bytes still parses to the empty dict. -/
theorem claim_C10_no_content_length_witness :
    parse_request cSrvNoParse c10Req = .ok (JVal.obj []) := by
  exact claim_C10_no_content_length cSrvNoParse c10Req rfl
